import Mathlib

set_option linter.unnecessarySimpa false

/-
A verification development for the PRD generator web application.

The repository has two source files:
  * prd_generator.py — the core generation engine: template catalog, prompt
    assembly (text or multimodal content), and the streaming generation calls.
  * app.py — the Flask boundary: request validation and the SSE event stream.

This file gives a shallow embedding of both files and proves the testable
properties of the specification against it.  Python strings are modelled by
Lean `String` (lists of characters); Python dictionaries of string fields by
`String → Option String`; the remote model service by an explicit function
argument from the assembled request to the stream outcome it produces.
-/

/- ## Python string primitives -/

/-- Whitespace characters removed by Python `str.strip()` (ASCII subset). -/
def isPySpace (c : Char) : Bool :=
  c == ' ' || c == '\t' || c == '\n' || c == '\r' || c == '\x0B' || c == '\x0C'

/-- Model of Python `s.strip()`: drop whitespace from both ends. -/
def pyStrip (s : String) : String :=
  ⟨((s.data.dropWhile isPySpace).reverse.dropWhile isPySpace).reverse⟩

/-- Fuel-indexed worker for `replaceList`.  Scans left to right; whenever the
pattern is a prefix of the remaining input it emits the replacement and skips
the pattern, exactly as Python `str.replace` does.  One unit of fuel is spent
per step, and each step consumes at least one input character, so fuel equal
to the input length never runs out. -/
def replaceListGo (pat rep : List Char) : Nat → List Char → List Char
  | _, [] => []
  | 0, _ :: _ => []
  | fuel + 1, c :: s =>
    if pat.isPrefixOf (c :: s) then
      rep ++ replaceListGo pat rep fuel (s.drop (pat.length - 1))
    else
      c :: replaceListGo pat rep fuel s

/-- Replace every (non-overlapping, leftmost-first) occurrence of `pat` by
`rep`, the semantics of Python `str.replace` for a non-empty pattern. -/
def replaceList (pat rep s : List Char) : List Char :=
  replaceListGo pat rep s.length s

/-- Model of Python `s.replace(pat, rep)`. -/
def pyReplace (s pat rep : String) : String :=
  ⟨replaceList pat.data rep.data s.data⟩

/-- Boolean substring test on character lists (Python `needle in hay`). -/
def infixOfB (needle : List Char) : List Char → Bool
  | [] => needle.isEmpty
  | c :: rest => needle.isPrefixOf (c :: rest) || infixOfB needle rest

/-- Boolean substring test on strings: does `hay` contain `needle`? -/
def strContains (hay needle : String) : Bool :=
  infixOfB needle.data hay.data

/-- Fuel-indexed decimal digit rendering; at fuel `n` this is the usual
base-10 representation of any number up to `10^n`. -/
def decDigitsGo : Nat → Nat → List Char
  | 0, n => [Nat.digitChar (n % 10)]
  | fuel + 1, n =>
    if n < 10 then [Nat.digitChar n]
    else decDigitsGo fuel (n / 10) ++ [Nat.digitChar (n % 10)]

/-- Model of Python `str(n)` for a natural number: its decimal digits. -/
def decStr (n : Nat) : String :=
  ⟨decDigitsGo n n⟩

/-- The ten decimal digit characters (used to reason about rendered numbers). -/
def digitChars : List Char := ['0', '1', '2', '3', '4', '5', '6', '7', '8', '9']

/-- A JSON-style dictionary of string-valued fields. -/
def PyDict : Type := String → Option String

/-- Model of Python `d.get(key, default)`. -/
def dictGet (d : PyDict) (key default_ : String) : String :=
  (d key).getD default_

/-- Functional update of a dictionary (used to state substitution facts). -/
def dictInsert (d : PyDict) (key val : String) : PyDict :=
  fun k => if k = key then some val else d k

/-- The everywhere-undefined dictionary (a request with no fields). -/
def emptyDict : PyDict := fun _ => none

namespace PRD

/- ## prd_generator.py — templates -/

/-- The static system prompt sent with every request (`SYSTEM_PROMPT`). -/
def SYSTEM_PROMPT : String :=
  "You are a Principal Product Manager at a top-tier tech company with 15 years of experience shipping products used by millions. You write world-class Product Requirements Documents (PRDs) adopted as the gold standard at FAANG companies.\n\nYour PRDs are:\n- **Specific**: Concrete details, not vague descriptions or placeholders\n- **Measurable**: Every goal has a numeric target metric\n- **Actionable**: Engineers can implement directly from your requirements\n- **Complete**: No section is left with a placeholder — generate real content\n- **Realistic**: Timelines, estimates and metrics are grounded in reality\n\nRules you must ALWAYS follow:\n1. Fill ALL sections with specific, realistic content based on the product inputs\n2. Generate believable success metrics (e.g. \"Increase checkout conversion from 64% → 78%\")\n3. Write 4–6 concrete user stories with acceptance criteria checklists\n4. List 6+ functional requirements ranked by priority (P0/P1/P2)\n5. Identify 3–5 risks with specific, actionable mitigations\n6. Propose a realistic timeline with clear week-by-week milestones\n7. Always define explicit out-of-scope items to prevent scope creep\n8. Use clean, professional Markdown throughout\n9. NEVER write \"[describe here]\", \"[add details]\" or any placeholder text\n"

/-- The standard PRD template skeleton (TEMPLATES["standard"] in prd_generator.py). -/
def template_standard : String :=
  "Using the product information above, generate a complete, production-quality Standard PRD. Fill EVERY section with specific, detailed, realistic content — no placeholders.\n\n---\n\n# {product_name}\n### Product Requirements Document\n\n| | |\n|---|---|\n| **Version** | 1.0 |\n| **Date** | {date} |\n| **Status** | Draft |\n| **Author** | [PM Name] |\n\n---\n\n## 1. Executive Summary\n\n*(One-paragraph overview covering the problem, solution, business impact and key metrics)*\n\n## 2. Problem Definition\n\n### 2.1 Customer Problem\n*(Who is affected, what specifically hurts them, how often, why it matters now)*\n\n### 2.2 Market Opportunity\n*(Market size, competitive landscape, why now is the right time)*\n\n### 2.3 Business Case\n*(Revenue potential, cost savings, strategic alignment, cost of inaction)*\n\n## 3. Solution Overview\n\n### 3.1 Proposed Solution\n*(What we are building, key capabilities, how users experience it)*\n\n### 3.2 In Scope\n*(Bullet list of features explicitly included in this release)*\n\n### 3.3 Out of Scope\n*(Bullet list of things we are explicitly NOT building — this prevents scope creep)*\n\n### 3.4 MVP Definition\n*(Minimum viable feature set, success criteria, learning goals)*\n\n## 4. User Stories & Requirements\n\n### 4.1 User Stories\n*(4–6 stories in \"As a [persona]… I want… So that…\" format, each with an acceptance criteria checklist)*\n\n### 4.2 Functional Requirements\n*(Table: ID | Requirement | Priority | Notes — at least 6 rows)*\n\n### 4.3 Non-Functional Requirements\n*(Performance targets, scalability, security, reliability, accessibility)*\n\n## 5. Design & User Experience\n\n### 5.1 Design Principles\n*(3 core principles guiding this feature)*\n\n### 5.2 Key Screens & Flows\n*(Describe the main user flows step by step)*\n\n## 6. Technical Specifications\n\n### 6.1 Architecture Overview\n*(High-level system architecture and key components)*\n\n### 6.2 API / Integration Points\n*(Any new or modified endpoints, third-party integrations)*\n\n### 6.3 Data Model\n*(Key entities and their relationships)*\n\n### 6.4 Security & Compliance\n*(Auth model, data encryption, PII handling, regulatory notes)*\n\n## 7. Go-to-Market Strategy\n\n### 7.1 Launch Plan\n*(Phased rollout: beta → limited → general availability)*\n\n### 7.2 Success Metrics\n*(Table: Metric | Current Baseline | Target | Measurement Method)*\n\n## 8. Risks & Mitigations\n\n*(Table: Risk | Probability | Impact | Mitigation Strategy — at least 4 rows)*\n\n## 9. Timeline & Milestones\n\n*(Table: Milestone | Target Week | Deliverables | Success Criteria)*\n\n## 10. Team & Resources\n\n*(Engineering, design, QA headcount; budget estimate)*\n\n## 11. Open Questions\n\n*(Numbered list of unresolved questions that need answers before development starts)*\n"

/-- The one_page PRD template skeleton (TEMPLATES["one_page"] in prd_generator.py). -/
def template_one_page : String :=
  "Using the product information above, generate a crisp, complete One-Page PRD. Every field must contain specific, realistic content — no placeholders.\n\n---\n\n# {product_name}\n### One-Page PRD\n\n**Date**: {date} &nbsp;|&nbsp; **Status**: Draft\n\n---\n\n## Problem\n*(2–3 sentences: what problem, for whom, and why it matters)*\n\n## Solution\n*(2–3 sentences: what we are building and how it solves the problem)*\n\n## Why Now?\n*(3 bullet points explaining urgency)*\n\n## Success Metrics\n\n| Metric | Current | Target |\n|--------|---------|--------|\n| *(KPI 1)* | | |\n| *(KPI 2)* | | |\n| *(KPI 3)* | | |\n\n## Scope\n**In**: *(comma-separated feature list)*\n**Out**: *(explicit exclusions)*\n\n## User Flow\n```\n[Step 1] → [Step 2] → [Step 3] → ✓ Done\n```\n\n## Risks\n1. *(Risk)* → *(Mitigation)*\n2. *(Risk)* → *(Mitigation)*\n\n## Timeline\n| Phase | Duration |\n|-------|----------|\n| Design | |\n| Development | |\n| Testing | |\n| Launch | |\n\n## Resources\n*(Engineering, design, QA headcount)*\n\n## Open Questions\n1. *(Question?)*\n"

/-- The agile_epic PRD template skeleton (TEMPLATES["agile_epic"] in prd_generator.py). -/
def template_agile_epic : String :=
  "Using the product information above, generate a complete Agile Epic PRD. Fill every section with specific, realistic content — no placeholders.\n\n---\n\n# {product_name}\n### Agile Epic\n\n| | |\n|---|---|\n| **Epic ID** | EPIC-001 |\n| **Quarter** | {quarter} |\n| **Status** | Discovery |\n\n---\n\n## Problem Statement\n*(2–3 sentences)*\n\n## Goals & Objectives\n1. *(Objective 1)*\n2. *(Objective 2)*\n3. *(Objective 3)*\n\n## Success Metrics\n| Metric | Target | How Measured |\n|--------|--------|--------------|\n| | | |\n\n## User Story Map\n\n| Story ID | User Story | Priority | Story Points | Status |\n|----------|-----------|----------|--------------|--------|\n| US-001 | As a… | P0 | | To Do |\n| US-002 | As a… | P0 | | To Do |\n| US-003 | As a… | P1 | | To Do |\n| US-004 | As a… | P1 | | To Do |\n\n## Sprint Breakdown\n*(Propose a 2-sprint delivery plan with specific deliverables per sprint)*\n\n## Dependencies\n*(List teams or systems this epic depends on)*\n\n## Acceptance Criteria\n- [ ] *(Criterion 1)*\n- [ ] *(Criterion 2)*\n- [ ] *(Criterion 3)*\n- [ ] Performance targets met\n- [ ] Security review passed\n\n## Definition of Done\n*(Complete checklist for epic closure)*\n\n## Risks & Blockers\n*(Known risks that could affect delivery)*\n"

/-- The feature_brief PRD template skeleton (TEMPLATES["feature_brief"] in prd_generator.py). -/
def template_feature_brief : String :=
  "Using the product information above, generate a complete Feature Brief. Fill every field with specific, realistic content — no placeholders.\n\n---\n\n# {product_name}\n### Feature Brief\n\n**Date**: {date}\n\n---\n\n## Context\n*(Why are we considering this? What triggered this exploration?)*\n\n## Hypothesis\n> We believe that **[building this feature]**\n> for **[these users]**\n> will **[achieve this specific outcome]**.\n> We'll know we're right when **[we observe this measurable signal]**.\n\n## Proposed Approach\n*(High-level approach in 4–6 sentences)*\n\n## Key Assumptions\n*(List the assumptions this brief rests on — what do we need to validate?)*\n\n## Effort Estimate\n- **Size**: *(XS / S / M / L / XL)*\n- **Confidence**: *(High / Medium / Low)*\n- **Rough Timeline**: *(e.g. 2 sprints)*\n\n## Success Signal\n*(What single metric would tell us this feature worked?)*\n\n## Alternatives Considered\n*(What other approaches did we reject and why?)*\n\n## Next Steps\n- [ ] User research / interviews\n- [ ] Design exploration\n- [ ] Technical spike\n- [ ] Stakeholder review\n- [ ] Decision: build / shelve / revisit\n"


/-- The template catalog (`TEMPLATES` in prd_generator.py): one skeleton per
supported format, keyed by the format name. -/
def TEMPLATES : List (String × String) :=
  [("standard", template_standard),
   ("one_page", template_one_page),
   ("agile_epic", template_agile_epic),
   ("feature_brief", template_feature_brief)]

/-- Model of `TEMPLATES.get(format_type, TEMPLATES["standard"])`: template
lookup with the standard skeleton as permissive default. -/
def templates_get (format_type : String) : String :=
  (TEMPLATES.lookup format_type).getD template_standard

/-- The current wall-clock date, the part of `datetime.now()` the code reads. -/
structure Clock where
  month : Nat
  day : Nat
  year : Nat

/-- The English month names used by `strftime("%B")`. -/
def monthNames : List String :=
  ["January", "February", "March", "April", "May", "June", "July",
   "August", "September", "October", "November", "December"]

/-- Model of `strftime("%B")`: the full month name (months count from 1). -/
def monthName (m : Nat) : String :=
  monthNames.getD (m - 1) ""

/-- Model of `strftime("%d")`: the day of the month, zero-padded to width 2. -/
def pad2 (d : Nat) : String :=
  if d < 10 then "0" ++ decStr d else decStr d

/-- The `date` local of `_format_template`: `now.strftime("%B %d, %Y")`. -/
def dateStr (now : Clock) : String :=
  monthName now.month ++ " " ++ pad2 now.day ++ ", " ++ decStr now.year

/-- The `quarter` local of `_format_template`:
`f"Q{(now.month - 1) // 3 + 1} {now.year}"`. -/
def quarterStr (now : Clock) : String :=
  "Q" ++ decStr ((now.month - 1) / 3 + 1) ++ " " ++ decStr now.year

/-- Model of `PRDGenerator._format_template`: resolve the template for the
requested format (falling back to standard) and substitute the date and
quarter placeholders.  The product-name placeholder is left for the prompt
builder, exactly as in the source. -/
def format_template (format_type : String) (now : Clock) : String :=
  pyReplace (pyReplace (templates_get format_type) "{date}" (dateStr now))
    "{quarter}" (quarterStr now)

/-- The rendered value of the optional `business_goals` field in the
Product Inputs block: `inputs.get("business_goals", "").strip()`. -/
def rendered_business_goals (inputs : PyDict) : String :=
  pyStrip (dictGet inputs "business_goals" "")

/-- The rendered value of the optional `timeline` field:
`inputs.get("timeline", "To be determined").strip()`. -/
def rendered_timeline (inputs : PyDict) : String :=
  pyStrip (dictGet inputs "timeline" "To be determined")

/-- The rendered value of the optional `additional_context` field:
`inputs.get("additional_context", "None provided").strip()`. -/
def rendered_additional_context (inputs : PyDict) : String :=
  pyStrip (dictGet inputs "additional_context" "None provided")

/-- Model of `PRDGenerator._build_prompt`: the Product Inputs block followed
by the resolved template (with the product name substituted) and the closing
directive.  Field accesses mirror the source f-string exactly, including the
missing `.strip()` on the product name and the empty-string fallback on
`business_goals`. -/
def build_prompt (inputs : PyDict) (format_type : String) (now : Clock) : String :=
  let product_name := dictGet inputs "product_name" "Untitled Feature"
  let template := pyReplace (format_template format_type now) "{product_name}" product_name
  "## Product Inputs\n\n**Product / Feature Name**: " ++ product_name ++
  "\n\n**Problem Statement**:\n" ++ pyStrip (dictGet inputs "problem_statement" "") ++
  "\n\n**Target Users**:\n" ++ pyStrip (dictGet inputs "target_users" "") ++
  "\n\n**Proposed Solution**:\n" ++ pyStrip (dictGet inputs "proposed_solution" "") ++
  "\n\n**Business Goals & Expected Impact**:\n" ++ rendered_business_goals inputs ++
  "\n\n**Timeline**:\n" ++ rendered_timeline inputs ++
  "\n\n**Additional Context**:\n" ++ rendered_additional_context inputs ++
  "\n\n---\n\n" ++ template ++
  "\n\nGenerate the complete PRD now. Replace every placeholder with specific, realistic, actionable content derived from the product inputs above."

/-- A reference image as submitted to the API: required base64 `data` plus an
optional `media_type` tag (defaulting to `image/png` at assembly time). -/
structure RefImage where
  data : String
  media_type : Option String

/-- One block of the structured user-message content: either a text segment
or a base64 image attachment. -/
inductive ContentBlock where
  | text (text : String)
  | image (media_type : String) (data : String)

/-- The image attachment block built for one reference image in
`_build_content`: `{"type": "image", "source": {"type": "base64", ...}}`. -/
def mkImageBlock (img : RefImage) : ContentBlock :=
  ContentBlock.image (img.media_type.getD "image/png") img.data

/-- Recognizer for image attachment blocks. -/
def isImageBlock : ContentBlock → Bool
  | ContentBlock.image _ _ => true
  | ContentBlock.text _ => false

/-- The intro text block of `_build_content` for `n` attached images,
with the plural suffixes chosen exactly as in the source f-string. -/
def introText (n : Nat) : String :=
  "I'm providing " ++ decStr n ++ " visual reference" ++ (if n > 1 then "s" else "") ++
  " (mockup" ++ (if n > 1 then "s" else "") ++ " / wireframe" ++ (if n > 1 then "s" else "") ++
  ") to inform this PRD.\n\nPlease:\n1. Carefully analyze each visual and identify key screens, user flows, and UI patterns shown.\n2. Reference specific observations from the visuals in the relevant PRD sections (e.g. Design & UX, User Stories, Functional Requirements).\n3. Use the visuals to make the acceptance criteria and functional requirements more precise and implementation-ready.\n\n"

/-- Model of `PRDGenerator._build_content`: with no images the plain prompt
string; with images a block list of intro text, the image attachments in
submission order, and the prompt text last. -/
def build_content (inputs : PyDict) (format_type : String) (now : Clock)
    (images : List RefImage) : String ⊕ List ContentBlock :=
  let prompt := build_prompt inputs format_type now
  if images.isEmpty then Sum.inl prompt
  else
    Sum.inr (ContentBlock.text (introText images.length) ::
      (images.map mkImageBlock ++ [ContentBlock.text prompt]))

/-- The generator object: its constructor stores the credential and model
name (`PRDGenerator.__init__`). -/
structure PRDGenerator where
  api_key : String
  model : String

/-- The request shape handed to `client.messages.stream(...)`: model name,
token budget, system prompt, and a single user turn whose content is either
plain text or a block list. -/
structure ApiRequest where
  model : String
  max_tokens : Nat
  system : String
  messages : List (String × (String ⊕ List ContentBlock))

/-- What one streaming call to the model service produces: the text fragments
yielded in order, and `some message` if the stream failed (raised) after
yielding them, or `none` if it completed normally. -/
structure StreamOutcome where
  fragments : List String
  failure : Option String

/-- Model of `PRDGenerator.generate_stream`: build the content, open one
streaming call on the assembled request, and relay its text fragments.  The
remote service is the explicit argument `svc`. -/
def generate_stream (g : PRDGenerator) (svc : ApiRequest → StreamOutcome)
    (inputs : PyDict) (format_type : String) (now : Clock)
    (images : List RefImage) : StreamOutcome :=
  svc ⟨g.model, 4096, SYSTEM_PROMPT, [("user", build_content inputs format_type now images)]⟩

/-- Model of `PRDGenerator.generate`: `"".join(self.generate_stream(...))`.
Joining consumes the whole stream, so a mid-stream failure propagates and no
string is returned (`none`). -/
def generate (g : PRDGenerator) (svc : ApiRequest → StreamOutcome)
    (inputs : PyDict) (format_type : String) (now : Clock)
    (images : List RefImage) : Option String :=
  match (generate_stream g svc inputs format_type now images).failure with
  | none => some (String.join (generate_stream g svc inputs format_type now images).fragments)
  | some _ => none

end PRD

namespace App

/- ## app.py — the SSE boundary -/

/-- One outward server-sent event, as yielded by `sse_stream`:
`fragment text` models `yield f"data: {json.dumps({"text": chunk})}\n\n"`,
`error message` models `yield f"data: {json.dumps({"error": str(exc)})}\n\n"`,
and `done` models the sentinel `yield "data: [DONE]\n\n"`. -/
inductive SSEEvent where
  | fragment (text : String)
  | error (message : String)
  | done
deriving DecidableEq

/-- Recognizer for error events. -/
def isErrorEvent : SSEEvent → Bool
  | SSEEvent.error _ => true
  | _ => false

/-- The payloads of the fragment events of a run, in order. -/
def fragmentTexts (events : List SSEEvent) : List String :=
  events.filterMap fun e =>
    match e with
    | SSEEvent.fragment t => some t
    | _ => none

/-- Model of the `sse_stream` generator in the `/generate` route: the `try`
body yields one fragment event per source chunk until the source is exhausted
or raises, the `except` arm converts a raise into one error event, and the
`finally` arm always yields the `[DONE]` sentinel afterwards. -/
def sse_stream (source : PRD.StreamOutcome) : List SSEEvent :=
  source.fragments.map SSEEvent.fragment ++
    (match source.failure with
     | none => []
     | some msg => [SSEEvent.error msg]) ++
    [SSEEvent.done]

/-- The required-field list of the `/generate` route. -/
def required : List String :=
  ["product_name", "problem_statement", "target_users", "proposed_solution"]

/-- The route's missing-field computation:
`[f for f in required if not data.get(f, "").strip()]`. -/
def missingList (data : PyDict) : List String :=
  required.filter fun f => pyStrip (dictGet data f "") == ""

/-- What the `/generate` route returns: a JSON error response with an HTTP
status, or a streaming SSE response. -/
inductive RouteResponse where
  | jsonError (status : Nat) (message : String)
  | sse (events : List SSEEvent)

/-- Model of the `/generate` route (`generate` in app.py): credential check,
required-field validation, then the streaming response.  `defaultModel`
stands for `_get_model()`; the `model` field handling mirrors
`data.get("model") or _get_model()` (absent or empty means the default). -/
def generate (apiKey : Option String) (defaultModel : String) (data : PyDict)
    (now : PRD.Clock) (svc : PRD.ApiRequest → PRD.StreamOutcome) : RouteResponse :=
  match apiKey with
  | none => RouteResponse.jsonError 400
      "Anthropic API key not found. Add it to config.json as \"api_key\" or set the ANTHROPIC_API_KEY environment variable."
  | some key =>
    let missing := missingList data
    if missing.isEmpty then
      let format_type := dictGet data "format_type" "standard"
      let model := match data "model" with
        | none => defaultModel
        | some m => if m = "" then defaultModel else m
      RouteResponse.sse (sse_stream (PRD.generate_stream ⟨key, model⟩ svc data format_type now []))
    else
      RouteResponse.jsonError 422
        ("Missing required fields: " ++ String.intercalate ", " missing)

end App

/- ## Basic facts about prefixes, substrings and the string primitives -/

theorem pfx_nil {α : Type} {p : List α} (h : p <+: ([] : List α)) : p = [] := by
  obtain ⟨t, ht⟩ := h
  exact (List.append_eq_nil.mp ht).1

theorem infix_nil_eq {α : Type} {p : List α} (h : p <:+: ([] : List α)) : p = [] := by
  obtain ⟨s, t, ht⟩ := h
  have h2 := List.append_eq_nil.mp ht
  exact (List.append_eq_nil.mp h2.1).2

theorem cons_pfx_cons {α : Type} {a b : α} {l₁ l₂ : List α} :
    (a :: l₁) <+: (b :: l₂) ↔ a = b ∧ l₁ <+: l₂ := by
  constructor
  · rintro ⟨t, ht⟩
    rw [List.cons_append] at ht
    injection ht with h1 h2
    exact ⟨h1, t, h2⟩
  · rintro ⟨rfl, t, ht⟩
    exact ⟨t, by rw [List.cons_append, ht]⟩

theorem infix_cons_split {α : Type} {p l : List α} {c : α} :
    p <:+: (c :: l) ↔ p <+: (c :: l) ∨ p <:+: l := by
  constructor
  · rintro ⟨s, t, ht⟩
    cases s with
    | nil =>
      left
      exact ⟨t, by simpa using ht⟩
    | cons a s2 =>
      right
      rw [List.cons_append, List.cons_append] at ht
      injection ht with h1 h2
      exact ⟨s2, t, by simpa using h2⟩
  · rintro (⟨t, ht⟩ | ⟨s, t, ht⟩)
    · exact ⟨[], t, by simpa using ht⟩
    · exact ⟨c :: s, t, by simp [← ht]⟩

theorem pfx_infixed {α : Type} {p l : List α} (h : p <+: l) : p <:+: l := by
  obtain ⟨t, ht⟩ := h
  exact ⟨[], t, by simpa using ht⟩

theorem infix_of_infix_drop {α : Type} {p l : List α} {n : Nat}
    (h : p <:+: l.drop n) : p <:+: l := by
  obtain ⟨s, t, ht⟩ := h
  refine ⟨l.take n ++ s, t, ?_⟩
  rw [List.append_assoc (l.take n) s, List.append_assoc (l.take n) (s ++ p), ht,
    List.take_append_drop]

theorem pfxOf_iff {α : Type} [BEq α] [LawfulBEq α] (l₁ l₂ : List α) :
    l₁.isPrefixOf l₂ = true ↔ l₁ <+: l₂ := by
  induction l₁ generalizing l₂ with
  | nil => simp [List.isPrefixOf]
  | cons a as ih =>
    cases l₂ with
    | nil =>
      simp only [List.isPrefixOf, Bool.false_eq_true, false_iff]
      intro h
      exact List.cons_ne_nil a as (pfx_nil h)
    | cons b bs =>
      simp [List.isPrefixOf, Bool.and_eq_true, beq_iff_eq, ih, cons_pfx_cons]

theorem infixOfB_iff (needle hay : List Char) :
    infixOfB needle hay = true ↔ needle <:+: hay := by
  induction hay with
  | nil =>
    constructor
    · intro h
      have hn : needle = [] := by
        cases needle with
        | nil => rfl
        | cons a as => simp [infixOfB, List.isEmpty] at h
      exact ⟨[], [], by simp [hn]⟩
    · intro h
      rw [infix_nil_eq h]
      rfl
  | cons c rest ih =>
    simp [infixOfB, Bool.or_eq_true, pfxOf_iff, ih, infix_cons_split]

theorem strContains_iff (hay needle : String) :
    strContains hay needle = true ↔ needle.data <:+: hay.data :=
  infixOfB_iff needle.data hay.data

theorem strContains_false_iff (hay needle : String) :
    strContains hay needle = false ↔ ¬ needle.data <:+: hay.data := by
  rw [← strContains_iff]
  cases h : strContains hay needle <;> simp [h]

theorem data_append (a b : String) : (a ++ b).data = a.data ++ b.data := rfl

theorem strContains_self (t : String) : strContains t t = true :=
  (strContains_iff t t).mpr ⟨[], [], by simp⟩

theorem strContains_appendL {a t : String} (b : String)
    (h : strContains a t = true) : strContains (a ++ b) t = true := by
  rw [strContains_iff] at h ⊢
  obtain ⟨s, u, hu⟩ := h
  exact ⟨s, u ++ b.data, by rw [data_append, ← hu]; simp⟩

theorem strContains_appendR {b t : String} (a : String)
    (h : strContains b t = true) : strContains (a ++ b) t = true := by
  rw [strContains_iff] at h ⊢
  obtain ⟨s, u, hu⟩ := h
  exact ⟨a.data ++ s, u, by rw [data_append, ← hu]; simp⟩

theorem strContains_trans {a b c : String} (h1 : strContains a b = true)
    (h2 : strContains b c = true) : strContains a c = true := by
  rw [strContains_iff] at h1 h2 ⊢
  obtain ⟨s1, u1, hu1⟩ := h1
  obtain ⟨s2, u2, hu2⟩ := h2
  exact ⟨s1 ++ s2, u2 ++ u1, by rw [← hu1, ← hu2]; simp⟩

theorem dropWhile_sfx {α : Type} (p : α → Bool) (l : List α) :
    ∃ pre, pre ++ l.dropWhile p = l := by
  induction l with
  | nil => exact ⟨[], rfl⟩
  | cons c l2 ih =>
    by_cases hc : p c = true
    · obtain ⟨pre, hpre⟩ := ih
      exact ⟨c :: pre, by simp [List.dropWhile, hc, hpre]⟩
    · exact ⟨[], by simp [List.dropWhile, hc]⟩

theorem pyStrip_data_infixed (s : String) : (pyStrip s).data <:+: s.data := by
  obtain ⟨pre1, h1⟩ := dropWhile_sfx isPySpace s.data
  obtain ⟨pre2, h2⟩ := dropWhile_sfx isPySpace (s.data.dropWhile isPySpace).reverse
  refine ⟨pre1, pre2.reverse, ?_⟩
  have h3 : ((s.data.dropWhile isPySpace).reverse.dropWhile isPySpace).reverse ++ pre2.reverse
      = s.data.dropWhile isPySpace := by
    rw [← List.reverse_append, h2, List.reverse_reverse]
  show pre1 ++ (pyStrip s).data ++ pre2.reverse = s.data
  rw [List.append_assoc]
  show pre1 ++ (((s.data.dropWhile isPySpace).reverse.dropWhile isPySpace).reverse ++ pre2.reverse) = s.data
  rw [h3, h1]

theorem strContains_strip (s : String) : strContains s (pyStrip s) = true :=
  (strContains_iff s (pyStrip s)).mpr (pyStrip_data_infixed s)

/- ## Facts about `replaceListGo`: replaced patterns do not reappear -/

theorem data_eq_nil_iff (s : String) : s.data = [] ↔ s = "" := by
  constructor
  · intro h
    cases s with
    | mk d =>
      simp only at h
      rw [h]
  · intro h
    rw [h]

theorem replaceGo_pfx_inv {q rep : List Char} {c₀ : Char} (h0 : ∃ rep2, rep = c₀ :: rep2) :
    ∀ (fuel : Nat) (s r : List Char),
      c₀ ∉ r → r <+: replaceListGo q rep fuel s → r <+: s ∨ r = [] := by
  obtain ⟨rep2, hrep⟩ := h0
  intro fuel
  induction fuel with
  | zero =>
    intro s r _ h
    right
    cases s with
    | nil => exact pfx_nil (by simpa [replaceListGo] using h)
    | cons c s2 => exact pfx_nil (by simpa [replaceListGo] using h)
  | succ fuel ih =>
    intro s r hc h
    cases s with
    | nil =>
      right
      exact pfx_nil (by simpa [replaceListGo] using h)
    | cons c s2 =>
      by_cases hp : q.isPrefixOf (c :: s2) = true
      · simp only [replaceListGo, if_pos hp] at h
        cases r with
        | nil => right; rfl
        | cons a r2 =>
          exfalso
          rw [hrep] at h
          obtain ⟨t, ht⟩ := h
          rw [List.cons_append, List.cons_append] at ht
          injection ht with h1 _
          subst h1
          exact hc (List.mem_cons_self a r2)
      · simp only [replaceListGo, if_neg hp] at h
        cases r with
        | nil => right; rfl
        | cons a r2 =>
          obtain ⟨ha, hr2⟩ := cons_pfx_cons.mp h
          rcases ih s2 r2 (fun hm => hc (List.mem_cons_of_mem a hm)) hr2 with h2 | h2
          · left
            exact cons_pfx_cons.mpr ⟨ha, h2⟩
          · left
            subst h2
            exact cons_pfx_cons.mpr ⟨ha, ⟨s2, rfl⟩⟩

theorem infix_drop_rep {ph : Char} {pt rest : List Char} :
    ∀ rep : List Char, ph ∉ rep → (ph :: pt) <:+: rep ++ rest → (ph :: pt) <:+: rest := by
  intro rep
  induction rep with
  | nil =>
    intro _ h
    simpa using h
  | cons x rep2 ih =>
    intro hh h
    rw [List.cons_append] at h
    rcases infix_cons_split.mp h with hpre | hinf
    · exfalso
      obtain ⟨ha, _⟩ := cons_pfx_cons.mp hpre
      subst ha
      exact hh (List.mem_cons_self _ _)
    · exact ih (fun hm => hh (List.mem_cons_of_mem x hm)) hinf

theorem replaceGo_no_self {ph : Char} {pt rep : List Char} {c₀ : Char}
    (h2 : ph ∉ rep) (h0 : ∃ rep2, rep = c₀ :: rep2) (hc : c₀ ∉ ph :: pt) :
    ∀ fuel s, ¬ (ph :: pt) <:+: replaceListGo (ph :: pt) rep fuel s := by
  intro fuel
  induction fuel with
  | zero =>
    intro s h
    cases s with
    | nil => exact List.cons_ne_nil ph pt (infix_nil_eq (by simpa [replaceListGo] using h))
    | cons c s2 => exact List.cons_ne_nil ph pt (infix_nil_eq (by simpa [replaceListGo] using h))
  | succ fuel ih =>
    intro s h
    cases s with
    | nil => exact List.cons_ne_nil ph pt (infix_nil_eq (by simpa [replaceListGo] using h))
    | cons c s2 =>
      by_cases hp : (ph :: pt).isPrefixOf (c :: s2) = true
      · simp only [replaceListGo, if_pos hp] at h
        exact ih _ (infix_drop_rep rep h2 h)
      · simp only [replaceListGo, if_neg hp] at h
        rcases infix_cons_split.mp h with hpre | hinf
        · obtain ⟨ha, hr⟩ := cons_pfx_cons.mp hpre
          rcases replaceGo_pfx_inv h0 fuel s2 pt
              (fun hm => hc (List.mem_cons_of_mem ph hm)) hr with h3 | h3
          · exact hp ((pfxOf_iff _ _).mpr (cons_pfx_cons.mpr ⟨ha, h3⟩))
          · subst h3
            exact hp ((pfxOf_iff _ _).mpr (cons_pfx_cons.mpr ⟨ha, ⟨s2, rfl⟩⟩))
        · exact ih s2 hinf

theorem replaceGo_keeps_absent {q rep : List Char} {ph : Char} {pt : List Char} {c₀ : Char}
    (h2 : ph ∉ rep) (h0 : ∃ rep2, rep = c₀ :: rep2) (hc : c₀ ∉ ph :: pt) :
    ∀ fuel s, ¬ (ph :: pt) <:+: s → ¬ (ph :: pt) <:+: replaceListGo q rep fuel s := by
  intro fuel
  induction fuel with
  | zero =>
    intro s _ h
    cases s with
    | nil => exact List.cons_ne_nil ph pt (infix_nil_eq (by simpa [replaceListGo] using h))
    | cons c s2 => exact List.cons_ne_nil ph pt (infix_nil_eq (by simpa [replaceListGo] using h))
  | succ fuel ih =>
    intro s hs h
    cases s with
    | nil => exact List.cons_ne_nil ph pt (infix_nil_eq (by simpa [replaceListGo] using h))
    | cons c s2 =>
      by_cases hp : q.isPrefixOf (c :: s2) = true
      · simp only [replaceListGo, if_pos hp] at h
        have h3 := infix_drop_rep rep h2 h
        have h4 : ¬ (ph :: pt) <:+: s2.drop (q.length - 1) :=
          fun hx => hs (infix_cons_split.mpr (Or.inr (infix_of_infix_drop hx)))
        exact ih _ h4 h3
      · simp only [replaceListGo, if_neg hp] at h
        rcases infix_cons_split.mp h with hpre | hinf
        · obtain ⟨ha, hr⟩ := cons_pfx_cons.mp hpre
          rcases replaceGo_pfx_inv h0 fuel s2 pt
              (fun hm => hc (List.mem_cons_of_mem ph hm)) hr with h3 | h3
          · exact hs (pfx_infixed (cons_pfx_cons.mpr ⟨ha, h3⟩))
          · subst h3
            exact hs (pfx_infixed (cons_pfx_cons.mpr ⟨ha, ⟨s2, rfl⟩⟩))
        · exact ih s2 (fun hx => hs (infix_cons_split.mpr (Or.inr hx))) hinf

theorem replaceGo_ne_nil {q rep : List Char} (hrep : rep ≠ []) :
    ∀ fuel s, s ≠ [] → replaceListGo q rep (fuel + 1) s ≠ [] := by
  intro fuel s hs
  cases s with
  | nil => exact absurd rfl hs
  | cons c s2 =>
    by_cases hp : q.isPrefixOf (c :: s2) = true
    · simp only [replaceListGo, if_pos hp]
      simp [List.append_eq_nil, hrep]
    · simp only [replaceListGo, if_neg hp]
      exact List.cons_ne_nil c _

theorem pyReplace_data (s pat rep : String) :
    (pyReplace s pat rep).data = replaceListGo pat.data rep.data s.data.length s.data := rfl

theorem pyReplace_ne_empty {s rep : String} (pat : String) (hs : s ≠ "")
    (hrepd : rep.data ≠ []) : pyReplace s pat rep ≠ "" := by
  intro h
  have hd := (data_eq_nil_iff _).mpr h
  have hsd : s.data ≠ [] := fun hx => hs ((data_eq_nil_iff s).mp hx)
  cases hx : s.data with
  | nil => exact hsd hx
  | cons c s2 =>
    rw [pyReplace_data, hx] at hd
    exact replaceGo_ne_nil hrepd s2.length (c :: s2) (List.cons_ne_nil c s2)
      (by simpa using hd)

theorem pyReplace_no_pat {s pat rep : String} {ph c₀ : Char} {pt rep2 : List Char}
    (hpat : pat.data = ph :: pt) (hrep : rep.data = c₀ :: rep2)
    (h2 : ph ∉ rep.data) (hc : c₀ ∉ pat.data) :
    strContains (pyReplace s pat rep) pat = false := by
  rw [strContains_false_iff, pyReplace_data, hpat]
  exact replaceGo_no_self h2 ⟨rep2, hrep⟩ (hpat ▸ hc) s.data.length s.data

theorem pyReplace_keeps_absent {s pat rep other : String} {ph c₀ : Char} {pt rep2 : List Char}
    (hother : other.data = ph :: pt) (hrep : rep.data = c₀ :: rep2)
    (h2 : ph ∉ rep.data) (hc : c₀ ∉ other.data)
    (hs : strContains s other = false) :
    strContains (pyReplace s pat rep) other = false := by
  rw [strContains_false_iff, pyReplace_data, hother]
  rw [strContains_false_iff, hother] at hs
  exact replaceGo_keeps_absent h2 ⟨rep2, hrep⟩ (hother ▸ hc) s.data.length s.data hs

/- ## Characters of the rendered date and quarter strings -/

theorem digitChar_mem {n : Nat} (h : n < 10) : Nat.digitChar n ∈ digitChars := by
  interval_cases n <;> decide

theorem decDigitsGo_mem : ∀ fuel n : Nat, ∀ c ∈ decDigitsGo fuel n, c ∈ digitChars := by
  intro fuel
  induction fuel with
  | zero =>
    intro n c hc
    simp only [decDigitsGo, List.mem_singleton] at hc
    subst hc
    exact digitChar_mem (Nat.mod_lt n (by norm_num))
  | succ fuel ih =>
    intro n c hc
    by_cases hn : n < 10
    · simp only [decDigitsGo, if_pos hn, List.mem_singleton] at hc
      subst hc
      exact digitChar_mem hn
    · simp only [decDigitsGo, if_neg hn, List.mem_append, List.mem_singleton] at hc
      rcases hc with hc | hc
      · exact ih (n / 10) c hc
      · subst hc
        exact digitChar_mem (Nat.mod_lt n (by norm_num))

theorem decStr_mem {n : Nat} {c : Char} (hc : c ∈ (decStr n).data) : c ∈ digitChars :=
  decDigitsGo_mem n n c hc

theorem pad2_mem {d : Nat} {c : Char} (hc : c ∈ (PRD.pad2 d).data) : c ∈ digitChars := by
  by_cases hd : d < 10
  · simp only [PRD.pad2, if_pos hd, data_append, List.mem_append] at hc
    rcases hc with hc | hc
    · have : c = '0' := by simpa using hc
      subst this
      decide
    · exact decStr_mem hc
  · simp only [PRD.pad2, if_neg hd] at hc
    exact decStr_mem hc

theorem month_brace {m : Nat} (h1 : 1 ≤ m) (h2 : m ≤ 12) : '{' ∉ (PRD.monthName m).data := by
  interval_cases m <;> decide

theorem month_cons {m : Nat} (h1 : 1 ≤ m) (h2 : m ≤ 12) :
    ∃ c₀ tl, (PRD.monthName m).data = c₀ :: tl ∧ c₀ ∉ "{date}".data := by
  interval_cases m
  · exact ⟨'J', "anuary".data, by decide, by decide⟩
  · exact ⟨'F', "ebruary".data, by decide, by decide⟩
  · exact ⟨'M', "arch".data, by decide, by decide⟩
  · exact ⟨'A', "pril".data, by decide, by decide⟩
  · exact ⟨'M', "ay".data, by decide, by decide⟩
  · exact ⟨'J', "une".data, by decide, by decide⟩
  · exact ⟨'J', "uly".data, by decide, by decide⟩
  · exact ⟨'A', "ugust".data, by decide, by decide⟩
  · exact ⟨'S', "eptember".data, by decide, by decide⟩
  · exact ⟨'O', "ctober".data, by decide, by decide⟩
  · exact ⟨'N', "ovember".data, by decide, by decide⟩
  · exact ⟨'D', "ecember".data, by decide, by decide⟩

theorem dateStr_brace {now : PRD.Clock} (h1 : 1 ≤ now.month) (h2 : now.month ≤ 12) :
    '{' ∉ (PRD.dateStr now).data := by
  intro hc
  simp only [PRD.dateStr, data_append, List.mem_append] at hc
  rcases hc with (((hc | hc) | hc) | hc) | hc
  · exact month_brace h1 h2 hc
  · exact absurd hc (by decide)
  · exact absurd (pad2_mem hc) (by decide)
  · exact absurd hc (by decide)
  · exact absurd (decStr_mem hc) (by decide)

theorem dateStr_cons {now : PRD.Clock} (h1 : 1 ≤ now.month) (h2 : now.month ≤ 12) :
    ∃ c₀ tl, (PRD.dateStr now).data = c₀ :: tl ∧ c₀ ∉ "{date}".data := by
  obtain ⟨c₀, tl, hm, hd⟩ := month_cons h1 h2
  refine ⟨c₀, tl ++ (" ".data ++ ((PRD.pad2 now.day).data ++ (", ".data ++ (decStr now.year).data))),
    ?_, hd⟩
  simp only [PRD.dateStr, data_append, List.append_assoc, hm, List.cons_append]

theorem quarterStr_brace (now : PRD.Clock) : '{' ∉ (PRD.quarterStr now).data := by
  intro hc
  simp only [PRD.quarterStr, data_append, List.mem_append] at hc
  rcases hc with ((hc | hc) | hc) | hc
  · exact absurd hc (by decide)
  · exact absurd (decStr_mem hc) (by decide)
  · exact absurd hc (by decide)
  · exact absurd (decStr_mem hc) (by decide)

theorem quarterStr_cons (now : PRD.Clock) :
    ∃ tl, (PRD.quarterStr now).data = 'Q' :: tl := by
  refine ⟨(decStr ((now.month - 1) / 3 + 1)).data ++ (" ".data ++ (decStr now.year).data), ?_⟩
  simp [PRD.quarterStr, data_append, List.append_assoc]

/- ## Template lookup -/

theorem templates_get_unknown {fmt : String}
    (h : fmt ∉ (["standard", "one_page", "agile_epic", "feature_brief"] : List String)) :
    PRD.templates_get fmt = PRD.template_standard := by
  simp only [List.mem_cons, List.not_mem_nil, or_false, not_or] at h
  obtain ⟨h1, h2, h3, h4⟩ := h
  have b1 : (fmt == "standard") = false := beq_eq_false_iff_ne.mpr h1
  have b2 : (fmt == "one_page") = false := beq_eq_false_iff_ne.mpr h2
  have b3 : (fmt == "agile_epic") = false := beq_eq_false_iff_ne.mpr h3
  have b4 : (fmt == "feature_brief") = false := beq_eq_false_iff_ne.mpr h4
  simp [PRD.templates_get, PRD.TEMPLATES, List.lookup, b1, b2, b3, b4]

theorem templates_get_ne_empty (fmt : String) : PRD.templates_get fmt ≠ "" := by
  by_cases h1 : fmt = "standard"
  · subst h1
    decide
  by_cases h2 : fmt = "one_page"
  · subst h2
    decide
  by_cases h3 : fmt = "agile_epic"
  · subst h3
    decide
  by_cases h4 : fmt = "feature_brief"
  · subst h4
    decide
  rw [templates_get_unknown (by simp [h1, h2, h3, h4])]
  decide

/- ## The claims about templates -/

/-- C8: for every format string that is not one of standard, one_page,
agile_epic, feature_brief, template resolution does not fail and returns the
standard skeleton; for each of the four known format values it returns that
format's own skeleton. -/
theorem C8_unknown_format_fallback :
    (∀ fmt : String,
      fmt ∉ (["standard", "one_page", "agile_epic", "feature_brief"] : List String) →
      PRD.templates_get fmt = PRD.template_standard) ∧
    PRD.templates_get "standard" = PRD.template_standard ∧
    PRD.templates_get "one_page" = PRD.template_one_page ∧
    PRD.templates_get "agile_epic" = PRD.template_agile_epic ∧
    PRD.templates_get "feature_brief" = PRD.template_feature_brief :=
  ⟨fun _ h => templates_get_unknown h, rfl, rfl, rfl, rfl⟩

/-- Witness for C8 at the concrete unknown format string "gantt_chart". -/
theorem C8_witness :
    ("gantt_chart" : String) ∉
      (["standard", "one_page", "agile_epic", "feature_brief"] : List String) ∧
    PRD.templates_get "gantt_chart" = PRD.template_standard :=
  ⟨by decide, C8_unknown_format_fallback.1 "gantt_chart" (by decide)⟩

/-- C9: for every format and every wall-clock date (month between 1 and 12),
the template text returned by the resolver is non-empty and contains no
unresolved date or quarter placeholder; the quarter is computed from the
month as integer((month - 1) / 3) + 1 by `quarterStr`. -/
theorem C9_template_resolved (fmt : String) (now : PRD.Clock)
    (h1 : 1 ≤ now.month) (h2 : now.month ≤ 12) :
    PRD.format_template fmt now ≠ "" ∧
    strContains (PRD.format_template fmt now) "{date}" = false ∧
    strContains (PRD.format_template fmt now) "{quarter}" = false := by
  obtain ⟨c₀, tl, hdc, hdn⟩ := dateStr_cons h1 h2
  obtain ⟨tq, hqc⟩ := quarterStr_cons now
  have hdd : (PRD.dateStr now).data ≠ [] := by
    rw [hdc]
    exact List.cons_ne_nil _ _
  have hqd : (PRD.quarterStr now).data ≠ [] := by
    rw [hqc]
    exact List.cons_ne_nil _ _
  have hs1 : strContains (pyReplace (PRD.templates_get fmt) "{date}" (PRD.dateStr now))
      "{date}" = false :=
    pyReplace_no_pat rfl hdc (dateStr_brace h1 h2) hdn
  refine ⟨?_, ?_, ?_⟩
  · exact pyReplace_ne_empty _
      (pyReplace_ne_empty _ (templates_get_ne_empty fmt) hdd) hqd
  · exact pyReplace_keeps_absent rfl hqc (quarterStr_brace now) (by decide) hs1
  · exact pyReplace_no_pat rfl hqc (quarterStr_brace now) (by decide)

/-- Witness for C9 at the standard format and the concrete date 2026-10-12. -/
theorem C9_witness :
    1 ≤ (PRD.Clock.mk 10 12 2026).month ∧ (PRD.Clock.mk 10 12 2026).month ≤ 12 ∧
    (PRD.format_template "standard" (PRD.Clock.mk 10 12 2026) ≠ "" ∧
     strContains (PRD.format_template "standard" (PRD.Clock.mk 10 12 2026)) "{date}" = false ∧
     strContains (PRD.format_template "standard" (PRD.Clock.mk 10 12 2026)) "{quarter}" = false) :=
  ⟨by decide, by decide,
    C9_template_resolved "standard" (PRD.Clock.mk 10 12 2026) (by decide) (by decide)⟩

/- ## The claims about the event stream -/

theorem filter_err_map_fragment (l : List String) :
    (l.map App.SSEEvent.fragment).filter App.isErrorEvent = [] := by
  induction l with
  | nil => rfl
  | cons a t ih => simp [List.filter_cons, App.isErrorEvent, ih]

theorem getLast?_append_two {α : Type} (l : List α) (a b : α) :
    (l ++ [a, b]).getLast? = some b := by
  have h : l ++ [a, b] = (l ++ [a]) ++ [b] := by simp
  rw [h, List.getLast?_concat]

theorem fragmentTexts_of_map (l : List String) :
    App.fragmentTexts (l.map App.SSEEvent.fragment ++ [App.SSEEvent.done]) = l := by
  induction l with
  | nil => rfl
  | cons a t ih => simpa [App.fragmentTexts, List.filterMap_cons] using ih

/-- C1 counterexample: on a source that fails after one fragment, the relay
emits a Done sentinel after the Error event (the `finally` arm always yields
`[DONE]`), so the run does not consist of the fragment and the error alone,
and it contains both an Error and a Done terminal. -/
theorem C1_counterexample :
    App.sse_stream ⟨["a"], some "boom"⟩ ≠
      [App.SSEEvent.fragment "a", App.SSEEvent.error "boom"] ∧
    App.SSEEvent.error "boom" ∈ App.sse_stream ⟨["a"], some "boom"⟩ ∧
    App.SSEEvent.done ∈ App.sse_stream ⟨["a"], some "boom"⟩ := by
  refine ⟨?_, ?_, ?_⟩ <;> decide

/-- C1 (amended): for every fragment sequence that fails after J fragments,
the event transcoder emits exactly the J Fragment events in source order,
then exactly one Error event, then exactly one Done sentinel, and nothing
further; the single Error is the only error event of the run and the
terminal (last) event is the Done sentinel, not the Error. -/
theorem C1_sse_error_then_done (frags : List String) (msg : String) :
    App.sse_stream ⟨frags, some msg⟩ =
      frags.map App.SSEEvent.fragment ++ [App.SSEEvent.error msg, App.SSEEvent.done] ∧
    (App.sse_stream ⟨frags, some msg⟩).filter App.isErrorEvent = [App.SSEEvent.error msg] ∧
    (App.sse_stream ⟨frags, some msg⟩).getLast? = some App.SSEEvent.done := by
  refine ⟨by simp [App.sse_stream], ?_, ?_⟩
  · simp [App.sse_stream, List.filter_append, filter_err_map_fragment, List.filter_cons,
      App.isErrorEvent]
  · have h : App.sse_stream ⟨frags, some msg⟩ =
        frags.map App.SSEEvent.fragment ++ [App.SSEEvent.error msg, App.SSEEvent.done] := by
      simp [App.sse_stream]
    rw [h, getLast?_append_two]

/-- C2: for every fragment sequence of length K that ends without failure,
the event transcoder emits exactly the K Fragment events, one per source
fragment in source order, followed by exactly one Done sentinel, and never
emits an Error event. -/
theorem C2_sse_success_events (frags : List String) :
    App.sse_stream ⟨frags, none⟩ =
      frags.map App.SSEEvent.fragment ++ [App.SSEEvent.done] ∧
    (App.sse_stream ⟨frags, none⟩).filter App.isErrorEvent = [] := by
  refine ⟨by simp [App.sse_stream], ?_⟩
  simp [App.sse_stream, List.filter_append, filter_err_map_fragment, List.filter_cons,
    App.isErrorEvent]

/-- C7: the result of generate equals the in-order concatenation of all
fragments yielded by generate_stream on the same arguments; equivalently,
concatenating the Fragment payloads of a successful relay of that stream
reproduces the full document text with no loss, duplication or reordering. -/
theorem C7_generate_joins_stream (g : PRD.PRDGenerator)
    (svc : PRD.ApiRequest → PRD.StreamOutcome) (inputs : PyDict)
    (format_type : String) (now : PRD.Clock) (images : List PRD.RefImage)
    (h : (PRD.generate_stream g svc inputs format_type now images).failure = none) :
    PRD.generate g svc inputs format_type now images =
      some (String.join (PRD.generate_stream g svc inputs format_type now images).fragments) ∧
    String.join (App.fragmentTexts
        (App.sse_stream (PRD.generate_stream g svc inputs format_type now images))) =
      String.join (PRD.generate_stream g svc inputs format_type now images).fragments := by
  constructor
  · simp [PRD.generate, h]
  · have h2 : App.sse_stream (PRD.generate_stream g svc inputs format_type now images) =
        (PRD.generate_stream g svc inputs format_type now images).fragments.map
          App.SSEEvent.fragment ++ [App.SSEEvent.done] := by
      simp [App.sse_stream, h]
    rw [h2, fragmentTexts_of_map]

/-- Witness for C7 at a concrete generator, service and input. -/
theorem C7_witness :
    (PRD.generate_stream ⟨"key", "model-x"⟩ (fun _ => ⟨["Hello, ", "world"], none⟩)
        emptyDict "standard" (PRD.Clock.mk 10 12 2026) []).failure = none ∧
    (PRD.generate ⟨"key", "model-x"⟩ (fun _ => ⟨["Hello, ", "world"], none⟩)
        emptyDict "standard" (PRD.Clock.mk 10 12 2026) [] =
      some (String.join (PRD.generate_stream ⟨"key", "model-x"⟩
        (fun _ => ⟨["Hello, ", "world"], none⟩)
        emptyDict "standard" (PRD.Clock.mk 10 12 2026) []).fragments) ∧
    String.join (App.fragmentTexts (App.sse_stream (PRD.generate_stream ⟨"key", "model-x"⟩
        (fun _ => ⟨["Hello, ", "world"], none⟩)
        emptyDict "standard" (PRD.Clock.mk 10 12 2026) []))) =
      String.join (PRD.generate_stream ⟨"key", "model-x"⟩
        (fun _ => ⟨["Hello, ", "world"], none⟩)
        emptyDict "standard" (PRD.Clock.mk 10 12 2026) []).fragments) :=
  ⟨rfl, C7_generate_joins_stream _ _ _ _ _ _ rfl⟩

/- ## The claims about validation and prompt assembly -/

/-- C3: for every request with an API key configured in which at least one
required field is empty after trimming, the route fails with the 422
missing-fields response before any model call is made (the response is
independent of the model service), and the reported missing-fields list
contains exactly the required fields that are empty after trimming. -/
theorem C3_validation_missing_fields (defaultModel key : String) (data : PyDict)
    (now : PRD.Clock) (svc : PRD.ApiRequest → PRD.StreamOutcome)
    (h : App.missingList data ≠ []) :
    App.generate (some key) defaultModel data now svc =
      App.RouteResponse.jsonError 422
        ("Missing required fields: " ++ String.intercalate ", " (App.missingList data)) ∧
    (∀ svc2, App.generate (some key) defaultModel data now svc =
      App.generate (some key) defaultModel data now svc2) ∧
    (∀ f, f ∈ App.missingList data ↔ f ∈ App.required ∧ pyStrip (dictGet data f "") = "") := by
  have hne : (App.missingList data).isEmpty = false := by
    cases hm : App.missingList data with
    | nil => exact absurd hm h
    | cons a t => rfl
  refine ⟨?_, ?_, ?_⟩
  · simp [App.generate, hne]
  · intro svc2
    simp [App.generate, hne]
  · intro f
    simp [App.missingList, List.mem_filter, beq_iff_eq]

/-- Witness for C3: a request carrying only product_name is rejected with
the three other required fields reported missing. -/
theorem C3_witness :
    App.missingList (fun k => if k = "product_name" then some "Widget" else none) ≠ [] ∧
    App.generate (some "key") "model-x"
        (fun k => if k = "product_name" then some "Widget" else none)
        (PRD.Clock.mk 10 12 2026) (fun _ => PRD.StreamOutcome.mk [] none) =
      App.RouteResponse.jsonError 422
        ("Missing required fields: " ++ String.intercalate ", "
          (App.missingList (fun k => if k = "product_name" then some "Widget" else none))) :=
  ⟨by decide, (C3_validation_missing_fields "model-x" "key"
    (fun k => if k = "product_name" then some "Widget" else none)
    (PRD.Clock.mk 10 12 2026) (fun _ => PRD.StreamOutcome.mk [] none) (by decide)).1⟩

/-- C4 counterexample: with the business_goals field absent, its rendered
value in the assembled prompt is the empty string — not the fixed fallback
text the claim promises for all three optional fields — and the assembled
prompt shows an empty Business Goals section directly followed by the
Timeline section. -/
theorem C4_counterexample :
    PRD.rendered_business_goals emptyDict = "" ∧
    ("" : String) ≠ "To be determined" ∧ ("" : String) ≠ "None provided" ∧
    strContains (PRD.build_prompt emptyDict "standard" (PRD.Clock.mk 10 12 2026))
      "**Business Goals & Expected Impact**:\n\n\n**Timeline**:" = true := by
  refine ⟨by decide, by decide, by decide, ?_⟩
  simp only [PRD.build_prompt]
  iterate 6 apply strContains_appendL
  decide

/-- C4 (amended): of the three optional fields, timeline and
additional_context are rendered with their fixed fallback text ("To be
determined" and "None provided" respectively) when absent, while
business_goals falls back to the empty string rather than to any fixed
fallback text. -/
theorem C4_optional_fallbacks (inputs : PyDict) :
    (inputs "timeline" = none → PRD.rendered_timeline inputs = "To be determined") ∧
    (inputs "additional_context" = none →
      PRD.rendered_additional_context inputs = "None provided") ∧
    (inputs "business_goals" = none → PRD.rendered_business_goals inputs = "") := by
  refine ⟨fun h => ?_, fun h => ?_, fun h => ?_⟩
  · simp only [PRD.rendered_timeline, dictGet, h, Option.getD_none]
    decide
  · simp only [PRD.rendered_additional_context, dictGet, h, Option.getD_none]
    decide
  · simp only [PRD.rendered_business_goals, dictGet, h, Option.getD_none]
    decide

/-- Witness for C4 at the empty request: all three optional fields absent. -/
theorem C4_witness :
    emptyDict "timeline" = none ∧ emptyDict "additional_context" = none ∧
    emptyDict "business_goals" = none ∧
    PRD.rendered_timeline emptyDict = "To be determined" ∧
    PRD.rendered_additional_context emptyDict = "None provided" ∧
    PRD.rendered_business_goals emptyDict = "" :=
  ⟨rfl, rfl, rfl, (C4_optional_fallbacks emptyDict).1 rfl,
    (C4_optional_fallbacks emptyDict).2.1 rfl, (C4_optional_fallbacks emptyDict).2.2 rfl⟩

/-- C5: for every inputs mapping whose four required fields are non-empty
after trimming, prompt assembly succeeds and the assembled prompt contains
the trimmed value of each of the four required fields verbatim. -/
theorem C5_prompt_contains_required (inputs : PyDict) (format_type : String) (now : PRD.Clock)
    (h : ∀ f ∈ App.required, pyStrip (dictGet inputs f "") ≠ "") :
    ∀ f ∈ App.required,
      strContains (PRD.build_prompt inputs format_type now)
        (pyStrip (dictGet inputs f "")) = true := by
  intro f hf
  simp only [App.required, List.mem_cons, List.not_mem_nil, or_false] at hf
  rcases hf with rfl | rfl | rfl | rfl
  · rcases hv : inputs "product_name" with _ | v
    · exact absurd (by simp [dictGet, hv]; decide)
        (h "product_name" (by simp [App.required]))
    · have hd : dictGet inputs "product_name" "" = v := by simp [dictGet, hv]
      have hd2 : dictGet inputs "product_name" "Untitled Feature" = v := by simp [dictGet, hv]
      rw [hd]
      have hv2 : strContains (PRD.build_prompt inputs format_type now) v = true := by
        simp only [PRD.build_prompt, hd2]
        iterate 15 apply strContains_appendL
        exact strContains_appendR _ (strContains_self v)
      exact strContains_trans hv2 (strContains_strip v)
  · simp only [PRD.build_prompt]
    iterate 13 apply strContains_appendL
    exact strContains_appendR _ (strContains_self _)
  · simp only [PRD.build_prompt]
    iterate 11 apply strContains_appendL
    exact strContains_appendR _ (strContains_self _)
  · simp only [PRD.build_prompt]
    iterate 9 apply strContains_appendL
    exact strContains_appendR _ (strContains_self _)

/-- Witness for C5 at a concrete request with all four required fields set
(the product name deliberately carries surrounding whitespace). -/
theorem C5_witness :
    (∀ f ∈ App.required,
      pyStrip (dictGet (fun k =>
        if k = "product_name" then some " Widget Pro "
        else if k = "problem_statement" then some "Users are lost."
        else if k = "target_users" then some "Admins"
        else if k = "proposed_solution" then some "A wizard."
        else none) f "") ≠ "") ∧
    (∀ f ∈ App.required,
      strContains (PRD.build_prompt (fun k =>
        if k = "product_name" then some " Widget Pro "
        else if k = "problem_statement" then some "Users are lost."
        else if k = "target_users" then some "Admins"
        else if k = "proposed_solution" then some "A wizard."
        else none) "one_page" (PRD.Clock.mk 3 1 2027))
        (pyStrip (dictGet (fun k =>
          if k = "product_name" then some " Widget Pro "
          else if k = "problem_statement" then some "Users are lost."
          else if k = "target_users" then some "Admins"
          else if k = "proposed_solution" then some "A wizard."
          else none) f "")) = true) :=
  ⟨by decide, C5_prompt_contains_required (fun k =>
      if k = "product_name" then some " Widget Pro "
      else if k = "problem_statement" then some "Users are lost."
      else if k = "target_users" then some "Admins"
      else if k = "proposed_solution" then some "A wizard."
      else none) "one_page" (PRD.Clock.mk 3 1 2027) (by decide)⟩

theorem filter_image_map (images : List PRD.RefImage) :
    (images.map PRD.mkImageBlock).filter PRD.isImageBlock = images.map PRD.mkImageBlock := by
  induction images with
  | nil => rfl
  | cons a t ih => simp [List.filter_cons, PRD.mkImageBlock, PRD.isImageBlock, ih]

/-- C6: with an empty images list the assembled content is the plain prompt
string with no wrapping structure; with N ≥ 1 images it is a block list
consisting of one intro text block, then exactly the N image attachments in
original submission order, then the prompt as the final text block (so the
list has N + 2 blocks and its image blocks are exactly the submitted images
in order). -/
theorem C6_content_shape (inputs : PyDict) (format_type : String) (now : PRD.Clock)
    (images : List PRD.RefImage) :
    (images = [] →
      PRD.build_content inputs format_type now images =
        Sum.inl (PRD.build_prompt inputs format_type now)) ∧
    (images ≠ [] →
      PRD.build_content inputs format_type now images =
        Sum.inr (PRD.ContentBlock.text (PRD.introText images.length) ::
          (images.map PRD.mkImageBlock ++
            [PRD.ContentBlock.text (PRD.build_prompt inputs format_type now)])) ∧
      (PRD.ContentBlock.text (PRD.introText images.length) ::
          (images.map PRD.mkImageBlock ++
            [PRD.ContentBlock.text (PRD.build_prompt inputs format_type now)])).filter
          PRD.isImageBlock = images.map PRD.mkImageBlock ∧
      (PRD.ContentBlock.text (PRD.introText images.length) ::
          (images.map PRD.mkImageBlock ++
            [PRD.ContentBlock.text (PRD.build_prompt inputs format_type now)])).length =
        images.length + 2) := by
  constructor
  · intro h
    subst h
    rfl
  · intro h
    have he : images.isEmpty = false := by
      cases images with
      | nil => exact absurd rfl h
      | cons a t => rfl
    refine ⟨?_, ?_, ?_⟩
    · simp [PRD.build_content, he]
    · simp [List.filter_cons, PRD.isImageBlock, List.filter_append, filter_image_map]
    · simp [List.length_cons, List.length_append, List.length_map]

/-- Witness for C6 at a zero-image and a one-image request. -/
theorem C6_witness :
    PRD.build_content emptyDict "standard" (PRD.Clock.mk 10 12 2026) [] =
      Sum.inl (PRD.build_prompt emptyDict "standard" (PRD.Clock.mk 10 12 2026)) ∧
    PRD.build_content emptyDict "standard" (PRD.Clock.mk 10 12 2026)
        [PRD.RefImage.mk "base64payload" (some "image/jpeg")] =
      Sum.inr (PRD.ContentBlock.text (PRD.introText 1) ::
        ([PRD.RefImage.mk "base64payload" (some "image/jpeg")].map PRD.mkImageBlock ++
          [PRD.ContentBlock.text
            (PRD.build_prompt emptyDict "standard" (PRD.Clock.mk 10 12 2026))])) :=
  ⟨(C6_content_shape emptyDict "standard" (PRD.Clock.mk 10 12 2026) []).1 rfl,
   ((C6_content_shape emptyDict "standard" (PRD.Clock.mk 10 12 2026)
      [PRD.RefImage.mk "base64payload" (some "image/jpeg")]).2 (by simp)).1⟩

/-- C10: for every inputs mapping that lacks the product_name key, prompt
assembly in the core does not fail: it substitutes the default name
"Untitled Feature", so the assembled prompt equals the prompt for the same
inputs with product_name explicitly set to "Untitled Feature" (the default
flows into both the template heading and the Product Inputs block), and the
Product Inputs block displays the default name. -/
theorem C10_missing_product_name_default (inputs : PyDict) (format_type : String)
    (now : PRD.Clock) (h : inputs "product_name" = none) :
    PRD.build_prompt inputs format_type now =
      PRD.build_prompt (dictInsert inputs "product_name" "Untitled Feature") format_type now ∧
    strContains (PRD.build_prompt inputs format_type now)
      "**Product / Feature Name**: Untitled Feature" = true := by
  constructor
  · simp [PRD.build_prompt, PRD.rendered_business_goals, PRD.rendered_timeline,
      PRD.rendered_additional_context, dictGet, dictInsert, h]
  · simp only [PRD.build_prompt, dictGet, h, Option.getD_none]
    iterate 15 apply strContains_appendL
    decide

/-- Witness for C10 at the empty request. -/
theorem C10_witness :
    emptyDict "product_name" = none ∧
    (PRD.build_prompt emptyDict "one_page" (PRD.Clock.mk 6 30 2027) =
      PRD.build_prompt (dictInsert emptyDict "product_name" "Untitled Feature")
        "one_page" (PRD.Clock.mk 6 30 2027) ∧
     strContains (PRD.build_prompt emptyDict "one_page" (PRD.Clock.mk 6 30 2027))
       "**Product / Feature Name**: Untitled Feature" = true) :=
  ⟨rfl, C10_missing_product_name_default emptyDict "one_page" (PRD.Clock.mk 6 30 2027) rfl⟩
